import Mathlib

/-!
# ChatForge — verification of the chat request lifecycle core

A shallow embedding of the core logic of `ChatForge.py` (an Ollama desktop
chat client): the model-name formatter, the inference request worker, the
conversation-session state transitions (streaming accumulation, response and
error integration, message submission), the slash-command handler and the
configuration round-trip.  Each definition mirrors the corresponding Python
function; GUI rendering (widget creation, animation, scrolling) is modelled
only through the `DisplayEvent` values it emits, and dialog interaction is
modelled as an explicit input, since its result comes from the user.
-/

namespace ChatForge

/-- Splitting a character list on whitespace runs, accumulating the
current word in reverse. -/
def pyWordsAux : List Char → List Char → List (List Char)
  | [], cur => if cur.isEmpty then [] else [cur.reverse]
  | c :: rest, cur =>
    if c.isWhitespace then
      if cur.isEmpty then pyWordsAux rest []
      else cur.reverse :: pyWordsAux rest []
    else pyWordsAux rest (c :: cur)

/-- Python `str.split()` with no argument: split on runs of whitespace,
discarding empty pieces. -/
def pySplit (s : String) : List String :=
  (pyWordsAux s.toList []).map String.mk

/-- Python `str.strip()` with no argument: drop leading and trailing
whitespace characters. -/
def pyStrip (s : String) : String :=
  String.mk (((s.toList.dropWhile Char.isWhitespace).reverse.dropWhile
    Char.isWhitespace).reverse)

/-- Python `message.startswith('/')`. -/
def startsWithSlash (s : String) : Bool :=
  match s.toList with
  | [] => false
  | c :: _ => c = '/'

/-- A word character for the purposes of the regex `\b` boundary
(`[A-Za-z0-9_]`; the model identifiers handled here are ASCII). -/
def isWordChar (c : Char) : Bool := c.isAlphanum || c = '_'

/-- Case-insensitive: `key` is a prefix of `s`. -/
def matchesCI : List Char → List Char → Bool
  | [], _ => true
  | _ :: _, [] => false
  | k :: ks, c :: cs => (k.toLower = c.toLower) && matchesCI ks cs

/-- One scanning pass of `re.sub(r'\b<key>\b', value, s, flags=re.IGNORECASE)`
for a purely alphabetic `key`: replace every case-insensitive whole-word
occurrence of `key` by `value`, left to right, never rescanning replacement
text.  `prevWord` records whether the character just before the current
position is a word character (so `\b` holds exactly when it is not, the
key itself starting with a word character).  The fuel argument is an upper
bound on the number of characters still to be consumed. -/
def subWordCI (key value : List Char) : Nat → Bool → List Char → List Char
  | 0, _, s => s
  | _ + 1, _, [] => []
  | fuel + 1, prevWord, c :: rest =>
    let s := c :: rest
    let after := s.drop key.length
    let boundaryAfter := match after.head? with
      | some d => !isWordChar d
      | none => true
    if !prevWord && !key.isEmpty && matchesCI key s && boundaryAfter then
      value ++ subWordCI key value fuel (isWordChar (key.getLastD ' ')) after
    else
      c :: subWordCI key value fuel (isWordChar c) rest

/-- `re.sub(r'\b<key>\b', value, s, flags=re.IGNORECASE)` for an alphabetic
`key`, as used for the model-family table and the `uncensored` marker. -/
def reSubWordCI (key value s : String) : String :=
  String.mk (subWordCI key.toList value.toList (s.length + 1) false s.toList)

/-- Attempt to match the regex `\d+(?:\.\d+)?[bB]` anchored at the head of
`s`, returning the matched text.  Greedy `\d+` never profits from
backtracking here (giving a digit back just exposes another digit where
`.` or `b`/`B` is required), so the match is: maximal digit run, then
either `b`/`B`, or `.`, a maximal nonempty digit run and `b`/`B`. -/
def matchSizeAt (s : List Char) : Option (List Char) :=
  let ds := s.takeWhile Char.isDigit
  let rest := s.dropWhile Char.isDigit
  if ds.isEmpty then none
  else
    match rest with
    | '.' :: rest2 =>
      let fs := rest2.takeWhile Char.isDigit
      let rest3 := rest2.dropWhile Char.isDigit
      if fs.isEmpty then none
      else
        match rest3 with
        | c :: _ => if c = 'b' ∨ c = 'B' then some (ds ++ '.' :: (fs ++ [c])) else none
        | [] => none
    | c :: _ => if c = 'b' ∨ c = 'B' then some (ds ++ [c]) else none
    | [] => none

/-- `re.search(r'(\d+(?:\.\d+)?[bB])', s)`: leftmost match of the size
pattern, scanning positions left to right. -/
def searchSize : List Char → Option (List Char)
  | [] => none
  | c :: rest =>
    match matchSizeAt (c :: rest) with
    | some m => some m
    | none => searchSize rest

/-- `extract_param_count` (ChatForge.py:162): `'7b' → '7'`; empty size info
yields `"unknown"`; a trailing `b`/`B` is stripped (Python lowercases and
tests `endswith('b')`, i.e. tests whether the last character lowercases to
`b`, then drops the last character of the original); anything else is
returned unchanged. -/
def extract_param_count (size_info : String) : String :=
  if size_info = "" then "unknown"
  else if (size_info.toList.getLastD ' ').toLower = 'b' then
    String.mk size_info.toList.dropLast
  else size_info

/-- The model-family capitalization table (ChatForge.py:204), in its Python
insertion order, which is the order the whole-word substitutions run in. -/
def model_families : List (String × String) :=
  [("llama", "Llama"), ("mistral", "Mistral"), ("codellama", "CodeLlama"),
   ("wizardlm", "WizardLM"), ("wizard", "Wizard"), ("gemma", "Gemma"),
   ("falcon", "Falcon"), ("phi", "Phi"), ("stablelm", "StableLM"),
   ("tinyllama", "TinyLlama"), ("vicuna", "Vicuna"), ("nous", "Nous"),
   ("orca", "Orca"), ("yi", "Yi")]

/-- The marker the word `uncensored` is replaced with (the literal string
between quotes at ChatForge.py:227: `(üóΩ)`). -/
def uncensoredMarker : String := "(üóΩ)"

/-- The Model Descriptor produced by `format_model_name`. -/
structure ModelInfo where
  formatted_name : String
  size_info : String
  original_name : String
  base_family : String
deriving DecidableEq, Repr

/-- Capitalize the first character of a word (`word[0].upper() + word[1:]`). -/
def capitalizeWord (w : String) : String :=
  match w.toList with
  | [] => ""
  | c :: rest => String.mk (c.toUpper :: rest)

/-- Python `name.split('/')[-1]`: the suffix after the last `/`. -/
def afterLastSlash (cs : List Char) : List Char :=
  (cs.reverse.takeWhile (· ≠ '/')).reverse

/-- Character-wise lowercasing (`str.lower()` for the ASCII data here). -/
def lowerStr (s : String) : String :=
  String.mk (s.toList.map Char.toLower)

/-- Python `str.replace(pat, new)` for a non-empty pattern: replace every
non-overlapping occurrence, scanning left to right and never rescanning
replacement text.  Fuel bounds the characters still to be consumed. -/
def replaceAllAux (pat new : List Char) : Nat → List Char → List Char
  | 0, s => s
  | _ + 1, [] => []
  | fuel + 1, c :: rest =>
    if !pat.isEmpty && pat.isPrefixOf (c :: rest) then
      new ++ replaceAllAux pat new fuel ((c :: rest).drop pat.length)
    else
      c :: replaceAllAux pat new fuel rest

/-- Python `s.replace(pat, new)` (non-empty `pat`). -/
def pyReplace (s pat new : String) : String :=
  String.mk (replaceAllAux pat.toList new.toList (s.length + 1) s.toList)

/-- `format_model_name` (ChatForge.py:173): strip the namespace up to the
last `/`; split off the `:tag` region and search it for a size token;
replace `-`/`_` by spaces; apply the whole-word family capitalization
table and the `uncensored` marker substitution; capitalize the first
letter of every remaining word; the family key is the first word. -/
def format_model_name (name : String) : ModelInfo :=
  let original_name := name
  let name1 :=
    if name.toList.contains '/' then String.mk (afterLastSlash name.toList) else name
  let (name2, size_info) :=
    if name1.toList.contains ':' then
      -- Python `name.split(':', 1)`: split at the first colon only.
      let cs := name1.toList
      let before := cs.takeWhile (· ≠ ':')
      let tagRegion := (cs.dropWhile (· ≠ ':')).drop 1
      let size := match searchSize tagRegion with
        | some m => String.mk m
        | none => ""
      (String.mk before, size)
    else (name1, "")
  let name3 := String.mk (name2.toList.map (fun c => if c = '-' || c = '_' then ' ' else c))
  let name4 := model_families.foldl (fun acc kv => reSubWordCI kv.1 kv.2 acc) name3
  let name5 := reSubWordCI "uncensored" uncensoredMarker name4
  let familyValuesLower := model_families.map (fun kv => lowerStr kv.2)
  let words := pySplit name5
  let capitalized := words.map (fun w =>
    if familyValuesLower.contains (lowerStr w) || w = uncensoredMarker then w
    else capitalizeWord w)
  { formatted_name := String.intercalate " " capitalized
    size_info := size_info
    original_name := original_name
    base_family := capitalized.headD "" }

/-! ## Inference Request Worker (`OllamaThread`, ChatForge.py:43) -/

/-- One line of a streaming HTTP response body, as `OllamaThread.run` sees
it: a JSON fragment carrying a `response` text chunk, a JSON fragment
without a `response` key (silently skipped), a line that fails to parse as
JSON (skipped with a logged warning), or an empty line (skipped by the
`if line:` test before parsing). -/
inductive StreamLine where
  | chunk (s : String)
  | noResponse
  | malformed
  | emptyLine
deriving DecidableEq, Repr

/-- The text chunk a line contributes, if any. -/
def chunkOf : StreamLine → Option String
  | .chunk s => some s
  | _ => none

/-- An event emitted by the worker thread: the three Qt signals of
`OllamaThread`. -/
inductive WorkerEvent where
  | streamingChunk (s : String)
  | responseReceived (s : String)
  | errorOccurred (msg : String)
deriving DecidableEq, Repr

/-- The `for line in response.iter_lines():` loop of `OllamaThread.run`
(ChatForge.py:115): emit each parsed chunk in order while accumulating it
into `full_response` (the second component of the result). -/
def streamLoop : List StreamLine → String → List WorkerEvent × String
  | [], acc => ([], acc)
  | l :: rest, acc =>
    match chunkOf l with
    | some c =>
      let r := streamLoop rest (acc ++ c)
      (WorkerEvent.streamingChunk c :: r.1, r.2)
    | none => streamLoop rest acc

/-- The streaming branch of `OllamaThread.run` (ChatForge.py:103-131),
as a function of the HTTP response it receives: on status 200, run the
chunk loop over the body lines and finish with `response_received` carrying
the accumulated text; otherwise emit a single `error_occurred` with the
status code and body text. -/
def run_streaming (status : Nat) (lines : List StreamLine) (error_text : String) :
    List WorkerEvent :=
  if status = 200 then
    let r := streamLoop lines ""
    r.1 ++ [WorkerEvent.responseReceived r.2]
  else
    [WorkerEvent.errorOccurred
      ("Error: Status code " ++ toString status ++ " - " ++ error_text)]

/-- `OllamaThread.process_system_prompt` (ChatForge.py:57): empty template
yields `""`; otherwise `%model%` is replaced by the formatted model name
and `%parameters%` by `extract_param_count` of the size info (every
occurrence, as Python `str.replace` does). -/
def process_system_prompt (system_prompt model : String) : String :=
  if system_prompt = "" then ""
  else
    let model_info := format_model_name model
    let param_count := extract_param_count model_info.size_info
    pyReplace (pyReplace system_prompt "%model%" model_info.formatted_name)
      "%parameters%" param_count

/-- The request payload built in `OllamaThread.run` (ChatForge.py:90-99):
`system = none` models the absence of the `"system"` key, which is added
only when the processed system prompt is non-empty. -/
structure Payload where
  model : String
  prompt : String
  stream : Bool
  system : Option String
deriving DecidableEq, Repr

/-- Payload construction in `OllamaThread.run`. -/
def mkPayload (model prompt : String) (use_streaming : Bool)
    (system_prompt : String) : Payload :=
  let processed := process_system_prompt system_prompt model
  { model := model
    prompt := prompt
    stream := use_streaming
    system := if processed ≠ "" then some processed else none }

/-! ## Conversation Session (`OllamaChatGUI`, ChatForge.py:1015) -/

/-- One entry of `conversation_history`: a dict
`{"role": ..., "content": ...}`. -/
structure Message where
  role : String
  content : String
deriving DecidableEq, Repr

/-- The session state carried by `OllamaChatGUI`: the history list, the
configuration fields, and whether a streaming bubble is currently active
(`current_streaming_bubble is not None`; every code path that consults the
bubble reads or writes `conversation_history[-1]`, never the widget's own
text, so a Boolean models the reference faithfully). -/
structure GuiState where
  conversation_history : List Message
  api_url : String
  current_model : String
  system_prompt : String
  use_streaming : Bool
  current_streaming_bubble : Bool
deriving DecidableEq, Repr

/-- A rendering action on the chat layout — the observable effect of
`add_message_bubble` (ChatForge.py:1469), which creates a widget but never
touches `conversation_history`. -/
inductive DisplayEvent where
  | bubble (content : String) (is_user : Bool)
deriving DecidableEq, Repr

/-- `OllamaChatGUI.add_message_bubble`: pure rendering, no history change. -/
def add_message_bubble (message : String) (is_user : Bool) : DisplayEvent :=
  DisplayEvent.bubble message is_user

/-- `OllamaChatGUI.add_streaming_bubble` (ChatForge.py:1398): append a new
assistant message holding the chunk and mark the accumulation active. -/
def add_streaming_bubble (st : GuiState) (message : String) : GuiState :=
  { st with
    conversation_history := st.conversation_history ++ [⟨"assistant", message⟩]
    current_streaming_bubble := true }

/-- `self.conversation_history[-1]["content"] += chunk`: append `chunk` to
the content of the last history entry.  (On an empty list the Python would
raise `IndexError`; the call sites only reach it with an active bubble,
which implies a non-empty history.) -/
def appendToLast : List Message → String → List Message
  | [], _ => []
  | [m], c => [⟨m.role, m.content ++ c⟩]
  | m :: m' :: rest, c => m :: appendToLast (m' :: rest) c

/-- `OllamaChatGUI.update_streaming_bubble` (ChatForge.py:1418): with an
active bubble, extend the last history entry's content by the chunk (the
widget is rebuilt from that content); with none, fall back to
`add_streaming_bubble`. -/
def update_streaming_bubble (st : GuiState) (new_chunk : String) : GuiState :=
  if st.current_streaming_bubble then
    { st with conversation_history := appendToLast st.conversation_history new_chunk }
  else
    add_streaming_bubble st new_chunk

/-- `OllamaChatGUI.handle_streaming_chunk` (ChatForge.py:1450): dispatch on
whether a streaming bubble is active.  Note: the chunk carries no request
identity, and no other staleness test exists. -/
def handle_streaming_chunk (st : GuiState) (chunk : String) : GuiState :=
  if st.current_streaming_bubble then
    update_streaming_bubble st chunk
  else
    add_streaming_bubble st chunk

/-- `OllamaChatGUI.handle_response` (ChatForge.py:1612): if streaming with
an active bubble, just clear the bubble (the chunks already hold the full
text); otherwise append one assistant message with the response. -/
def handle_response (st : GuiState) (response : String) : GuiState :=
  if st.use_streaming && st.current_streaming_bubble then
    { st with current_streaming_bubble := false }
  else
    { st with conversation_history := st.conversation_history ++ [⟨"assistant", response⟩] }

/-- `OllamaChatGUI.handle_error` (ChatForge.py:1636): render an
`"Error: ..."` bubble (which does not append to `conversation_history`)
and, when streaming is enabled, clear the streaming bubble. -/
def handle_error (st : GuiState) (error_message : String) :
    GuiState × List DisplayEvent :=
  (if st.use_streaming then { st with current_streaming_bubble := false } else st,
   [add_message_bubble ("Error: " ++ error_message) false])

/-! ## Command Interpreter (`SlashCommandHandler`, ChatForge.py:943) -/

/-- A session-level request a command action hands to the presentation
layer (opening a dialog, closing the application); the dialog's outcome is
external input and arrives separately. -/
inductive CommandEffect where
  | openModelDialog
  | openSystemPromptDialog
  | closeApp
deriving DecidableEq, Repr

/-- The command table of `SlashCommandHandler.__init__` (ChatForge.py:948),
in insertion order, each token paired with its description. -/
def commands : List (String × String) :=
  [("/clear", "Clear the chat history"),
   ("/models", "Open model selection panel"),
   ("/system", "Configure system prompt"),
   ("/bye", "Exit the application")]

/-- The action bound to a command token: `clear_chat` empties
`conversation_history` (ChatForge.py:994) and touches no configuration
field; the other three forward a request to the presentation layer. -/
def command_action (cmd : String) (st : GuiState) : GuiState × List CommandEffect :=
  if cmd = "/clear" then ({ st with conversation_history := [] }, [])
  else if cmd = "/models" then (st, [CommandEffect.openModelDialog])
  else if cmd = "/system" then (st, [CommandEffect.openSystemPromptDialog])
  else (st, [CommandEffect.closeApp])

/-- `SlashCommandHandler.process_command` (ChatForge.py:982): take the
first whitespace-delimited token (`command_text.split()[0]`; on input with
no token the Python raises `IndexError`, unreachable from `send_message`,
modelled as a `false` report), look it up exactly and case-sensitively in
the table, run the action on success and report whether it matched. -/
def process_command (st : GuiState) (command_text : String) :
    Bool × GuiState × List CommandEffect :=
  match pySplit command_text with
  | [] => (false, st, [])
  | cmd :: _ =>
    if (commands.map Prod.fst).contains cmd then
      let r := command_action cmd st
      (true, r.1, r.2)
    else
      (false, st, [])

/-! ## Message submission (`OllamaChatGUI.send_message`, ChatForge.py:1522) -/

/-- The parameters `send_message` constructs the `OllamaThread` with. -/
structure OllamaRequest where
  model : String
  prompt : String
  api_url : String
  system_prompt : String
  use_streaming : Bool
deriving DecidableEq, Repr

/-- What a `send_message` call came to: returned on empty input, handled a
slash command, gave up for want of a model, or started a worker request. -/
inductive SendOutcome where
  | noop
  | commandHandled (effects : List CommandEffect)
  | modelRequired
  | sent (request : OllamaRequest)
deriving DecidableEq, Repr

/-- Result of a `send_message` call: the outcome, the updated session
state, and the rendering it performed. -/
structure SendResult where
  outcome : SendOutcome
  state : GuiState
  displays : List DisplayEvent
deriving DecidableEq, Repr

/-- An accepted `ModelSelectionDialog`: the endpoint and model it sets on
the main window (ChatForge.py:1459-1467). -/
structure ModelSelection where
  api_url : String
  selected_model : String
deriving DecidableEq, Repr

/-- `not self.current_model or self.current_model in ["No models found",
"Fetching models...", "Error:"]` (ChatForge.py:1537). -/
def invalid_model (m : String) : Bool :=
  m = "" || m = "No models found" || m = "Fetching models..." || m = "Error:"

/-- Apply the outcome of `show_model_dialog`: an accepted dialog updates
`api_url` and `current_model`; a cancelled one changes nothing. -/
def applyDialog (st : GuiState) : Option ModelSelection → GuiState
  | some sel => { st with api_url := sel.api_url, current_model := sel.selected_model }
  | none => st

/-- `OllamaChatGUI.send_message` (ChatForge.py:1522).  `dialogResult` is
the outcome of the model-selection dialog `send_message` opens when no
valid model is set (the user's choice, hence an input; it is consulted
only on that path).  Steps, as in the code: strip the input and return on
empty; try slash-command processing when it starts with `/` and return if
a command matched; ensure a valid model, rendering a
"Please select a valid model first." bubble and returning otherwise;
append the user message to history, reset the streaming bubble when
streaming is on, and start a worker with the current configuration. -/
def send_message (st : GuiState) (input : String)
    (dialogResult : Option ModelSelection) : SendResult :=
  let message := pyStrip input
  if message = "" then
    { outcome := SendOutcome.noop, state := st, displays := [] }
  else
    let cmdResult := process_command st message
    if startsWithSlash message && cmdResult.1 then
      { outcome := SendOutcome.commandHandled cmdResult.2.2
        state := cmdResult.2.1
        displays := [] }
    else
      let stA := if invalid_model st.current_model then applyDialog st dialogResult else st
      if invalid_model stA.current_model then
        { outcome := SendOutcome.modelRequired
          state := stA
          displays := [add_message_bubble "Please select a valid model first." false] }
      else
        let st1 :=
          { stA with
            conversation_history := stA.conversation_history ++ [⟨"user", message⟩]
            current_streaming_bubble :=
              if stA.use_streaming then false else stA.current_streaming_bubble }
        { outcome := SendOutcome.sent
            { model := stA.current_model
              prompt := message
              api_url := stA.api_url
              system_prompt := stA.system_prompt
              use_streaming := stA.use_streaming }
          state := st1
          displays := [add_message_bubble message true] }

/-! ## Configuration persistence (ChatForge.py:854, ChatForge.py:1042) -/

/-- The JSON configuration file: each field may be absent. -/
structure ConfigFile where
  system_prompt : Option String
  use_streaming : Option Bool
deriving DecidableEq, Repr

/-- The two persisted session fields with their startup defaults. -/
structure SessionConfig where
  system_prompt : String
  use_streaming : Bool
deriving DecidableEq, Repr

/-- `SystemPromptDialog.save_prompt` (ChatForge.py:854): the prompt text is
stripped (`toPlainText().strip()`) and both fields are written. -/
def save_prompt (prompt_text : String) (streaming_checked : Bool) : ConfigFile :=
  { system_prompt := some (pyStrip prompt_text)
    use_streaming := some streaming_checked }

/-- `OllamaChatGUI.load_config` (ChatForge.py:1042) together with the
`__init__` defaults (ChatForge.py:1023-1024): start from the defaults
(empty prompt, streaming off); when the file exists, override exactly the
fields present in it. -/
def load_config (file : Option ConfigFile) : SessionConfig :=
  let dflt : SessionConfig := { system_prompt := "", use_streaming := false }
  match file with
  | none => dflt
  | some cfg =>
    { system_prompt := cfg.system_prompt.getD dflt.system_prompt
      use_streaming := cfg.use_streaming.getD dflt.use_streaming }

/-! ## Helper lemmas -/

/-- Appending a chunk to the last message of a non-empty history. -/
theorem appendToLast_concat (h : List Message) (m : Message) (c : String) :
    appendToLast (h ++ [m]) c = h ++ [⟨m.role, m.content ++ c⟩] := by
  induction h with
  | nil => rfl
  | cons a t ih =>
    cases t with
    | nil => rfl
    | cons b t' => simpa [appendToLast] using ih

/-- Pulling the accumulator out of a `foldl` over string append. -/
theorem string_foldl_append (cs : List String) (a : String) :
    cs.foldl (· ++ ·) a = a ++ cs.foldl (· ++ ·) "" := by
  induction cs generalizing a with
  | nil => simp [List.foldl, String.append_empty]
  | cons c cs ih =>
    show cs.foldl _ (a ++ c) = a ++ cs.foldl _ ("" ++ c)
    rw [ih (a ++ c), ih ("" ++ c), String.empty_append, String.append_assoc]

/-- `String.join` distributes over cons. -/
theorem string_join_cons (c : String) (cs : List String) :
    String.join (c :: cs) = c ++ String.join cs := by
  show cs.foldl _ ("" ++ c) = c ++ String.join cs
  rw [String.empty_append, string_foldl_append]
  rfl

/-- `handle_streaming_chunk` with an active accumulation: the chunk is
appended to the last history message. -/
theorem handle_streaming_chunk_active (st : GuiState) (chunk : String)
    (h : st.current_streaming_bubble = true) :
    handle_streaming_chunk st chunk =
      { st with conversation_history := appendToLast st.conversation_history chunk } := by
  simp [handle_streaming_chunk, update_streaming_bubble, h]

/-- `handle_streaming_chunk` with no active accumulation: a new assistant
message holding the chunk is appended and the accumulation becomes
active. -/
theorem handle_streaming_chunk_inactive (st : GuiState) (chunk : String)
    (h : st.current_streaming_bubble = false) :
    handle_streaming_chunk st chunk =
      { st with
        conversation_history := st.conversation_history ++ [⟨"assistant", chunk⟩]
        current_streaming_bubble := true } := by
  simp [handle_streaming_chunk, add_streaming_bubble, h]

/-- Characterization of the worker's streaming loop: it emits one
`streamingChunk` per line carrying a `response` field, in order, and its
accumulator ends as the initial accumulator followed by the concatenation
of those chunks. -/
theorem streamLoop_eq (lines : List StreamLine) (acc : String) :
    streamLoop lines acc =
      ((lines.filterMap chunkOf).map WorkerEvent.streamingChunk,
       acc ++ String.join (lines.filterMap chunkOf)) := by
  induction lines generalizing acc with
  | nil => simp [streamLoop, String.join, String.append_empty]
  | cons l rest ih =>
    cases l with
    | chunk s =>
      simp [streamLoop, chunkOf, ih, string_join_cons, String.append_assoc]
    | noResponse => simpa [streamLoop, chunkOf] using ih acc
    | malformed => simpa [streamLoop, chunkOf] using ih acc
    | emptyLine => simpa [streamLoop, chunkOf] using ih acc

/-- The model-selection dialog never touches the conversation history. -/
theorem applyDialog_history (st : GuiState) (d : Option ModelSelection) :
    (applyDialog st d).conversation_history = st.conversation_history := by
  cases d <;> rfl

/-- `process_command` on input whose first token is not in the command
table: reports failure and changes nothing. -/
theorem process_command_unknown (st : GuiState) (text tok : String)
    (rest : List String) (h : pySplit text = tok :: rest)
    (hmem : tok ∉ ["/clear", "/models", "/system", "/bye"]) :
    process_command st text = (false, st, []) := by
  simp [process_command, h, commands]
  simpa using hmem

/-! ## Claims -/

/-- C1 (counterexample): the claim asserts that the formatter, applied to
`"user/CodeLlama-7b-Instruct:latest"`, returns size hint `"7"`.  It does
not: the size pattern is searched only in the tag region after `:`, which
here is `latest`, so the size info is empty (and the numeric parameter
count of an empty size info is `"unknown"`), not `"7"` under either
reading. -/
theorem c1_counterexample :
    (format_model_name "user/CodeLlama-7b-Instruct:latest").size_info = "" ∧
    (format_model_name "user/CodeLlama-7b-Instruct:latest").size_info ≠ "7" ∧
    extract_param_count
      (format_model_name "user/CodeLlama-7b-Instruct:latest").size_info ≠ "7" := by
  refine ⟨by decide, by decide, by decide⟩

/-- C1 (amended): `format_model_name "user/CodeLlama-7b-Instruct:latest"`
returns the formatted name `"CodeLlama 7b Instruct"` (containing
`"CodeLlama"`) and an *empty* size hint, since the size token is searched
only in the tag region after `:` and the tag `latest` has none;
`format_model_name "llama2:13b"` returns formatted name `"Llama2"` and
size info `"13b"`, whose numeric parameter count is `"13"`;
`format_model_name "mistral"` returns an empty size hint. -/
theorem c1_formatter_examples :
    ((format_model_name "user/CodeLlama-7b-Instruct:latest").formatted_name =
        "CodeLlama 7b Instruct" ∧
      List.IsInfix "CodeLlama".toList
        (format_model_name "user/CodeLlama-7b-Instruct:latest").formatted_name.toList ∧
      (format_model_name "user/CodeLlama-7b-Instruct:latest").size_info = "") ∧
    ((format_model_name "llama2:13b").formatted_name = "Llama2" ∧
      (format_model_name "llama2:13b").size_info = "13b" ∧
      extract_param_count (format_model_name "llama2:13b").size_info = "13") ∧
    (format_model_name "mistral").size_info = "" := by
  refine ⟨⟨by decide, by decide, by decide⟩, ⟨by decide, by decide, by decide⟩, by decide⟩

/-- C5: in streaming mode with initial status 200 the worker emits each
parsed chunk in arrival order (lines that fail to parse, parse without a
`response` field, or are empty are skipped without aborting the stream),
and ends with a single `response_received` event whose payload is the
concatenation of all the chunks it emitted; with a non-200 initial status
it emits one error event and no chunk events. -/
theorem c5_worker_streaming (status : Nat) (lines : List StreamLine)
    (error_text : String) :
    (status = 200 →
      run_streaming status lines error_text =
        ((lines.filterMap chunkOf).map WorkerEvent.streamingChunk) ++
          [WorkerEvent.responseReceived (String.join (lines.filterMap chunkOf))]) ∧
    (status ≠ 200 →
      run_streaming status lines error_text =
        [WorkerEvent.errorOccurred
          ("Error: Status code " ++ toString status ++ " - " ++ error_text)]) := by
  constructor
  · intro h
    subst h
    simp [run_streaming, streamLoop_eq, String.empty_append]
  · intro h
    simp [run_streaming, h]

/-- C5 witness: the theorem applied to a concrete stream — status 200 with
lines yielding chunks `"Hel"`, `"lo"` around a malformed line, and to a
404 response. -/
theorem c5_worker_streaming_witness :
    run_streaming 200 [StreamLine.chunk "Hel", StreamLine.malformed,
        StreamLine.chunk "lo", StreamLine.emptyLine] "" =
      [WorkerEvent.streamingChunk "Hel", WorkerEvent.streamingChunk "lo",
        WorkerEvent.responseReceived "Hello"] ∧
    run_streaming 404 [StreamLine.chunk "Hel"] "not found" =
      [WorkerEvent.errorOccurred "Error: Status code 404 - not found"] := by
  constructor
  · have h := (c5_worker_streaming 200 [StreamLine.chunk "Hel", StreamLine.malformed,
      StreamLine.chunk "lo", StreamLine.emptyLine] "").1 rfl
    rw [h]; decide
  · have h := (c5_worker_streaming 404 [StreamLine.chunk "Hel"] "not found").2 (by decide)
    rw [h]; decide

/-- C2 (counterexample): the claim asserts that once request B has become
the active accumulation, late chunks from superseded request A are checked
for staleness and discarded.  No such check exists: the chunks carry no
request identity, and `handle_streaming_chunk` only tests whether *some*
accumulation is active.  In the concrete execution below — submit A,
submit B before A's chunks arrive, B's first chunk arrives (making B the
active accumulation), then a late chunk of A arrives — A's chunk is
appended to B's accumulated assistant message in history instead of being
discarded. -/
theorem c2_counterexample :
    (let st0 : GuiState :=
      { conversation_history := []
        api_url := "http://localhost:11434"
        current_model := "llama2:13b"
        system_prompt := ""
        use_streaming := true
        current_streaming_bubble := false }
    let stA := (send_message st0 "question A" none).state
    let stB := (send_message stA "question B" none).state
    let stBActive := handle_streaming_chunk stB "B1"
    let stAfterStale := handle_streaming_chunk stBActive "A-late"
    stAfterStale.conversation_history =
      [⟨"user", "question A"⟩, ⟨"user", "question B"⟩,
        ⟨"assistant", "B1A-late"⟩]) := by
  decide

/-- C2 (amended): there is no staleness filtering.  `handle_streaming_chunk`
dispatches only on whether an accumulation is currently active: with an
active accumulation any arriving chunk — including a late chunk of a
superseded request — is appended to the content of the last history
message, and with none it opens a new assistant message holding the chunk;
in neither case is a chunk discarded. -/
theorem c2_no_stale_filter (st : GuiState) (chunk : String) :
    (st.current_streaming_bubble = true →
      (handle_streaming_chunk st chunk).conversation_history =
        appendToLast st.conversation_history chunk) ∧
    (st.current_streaming_bubble = false →
      handle_streaming_chunk st chunk =
        { st with
          conversation_history := st.conversation_history ++ [⟨"assistant", chunk⟩]
          current_streaming_bubble := true }) := by
  exact ⟨fun h => by rw [handle_streaming_chunk_active st chunk h],
    fun h => handle_streaming_chunk_inactive st chunk h⟩

/-- C2 (amended) witness: the two branches at concrete states. -/
theorem c2_no_stale_filter_witness :
    (handle_streaming_chunk
      { conversation_history := [⟨"user", "q"⟩, ⟨"assistant", "B1"⟩]
        api_url := "u", current_model := "m", system_prompt := ""
        use_streaming := true, current_streaming_bubble := true }
      "A-late").conversation_history =
        [⟨"user", "q"⟩, ⟨"assistant", "B1A-late"⟩] ∧
    (handle_streaming_chunk
      { conversation_history := [⟨"user", "q"⟩]
        api_url := "u", current_model := "m", system_prompt := ""
        use_streaming := true, current_streaming_bubble := false }
      "A-late").conversation_history =
        [⟨"user", "q"⟩, ⟨"assistant", "A-late"⟩] := by
  constructor
  · rw [(c2_no_stale_filter _ "A-late").1 rfl]; decide
  · rw [(c2_no_stale_filter _ "A-late").2 rfl]; rfl

/-- C3: feeding the streaming chunks `"Hel"`, `"lo"`, `" world"` and then
the final event into a session with no active accumulation opens exactly
one assistant message on the first chunk, appends each later chunk to that
same message, and on the final event changes no content and clears the
accumulation pointer: history ends with exactly one new assistant message
`"Hello world"`, a net growth of exactly 1. -/
theorem c3_streaming_accumulation (st : GuiState)
    (hbub : st.current_streaming_bubble = false)
    (hstr : st.use_streaming = true) :
    (handle_streaming_chunk st "Hel").conversation_history =
      st.conversation_history ++ [⟨"assistant", "Hel"⟩] ∧
    (handle_streaming_chunk (handle_streaming_chunk st "Hel")
        "lo").conversation_history =
      st.conversation_history ++ [⟨"assistant", "Hello"⟩] ∧
    (handle_streaming_chunk (handle_streaming_chunk
        (handle_streaming_chunk st "Hel") "lo") " world").conversation_history =
      st.conversation_history ++ [⟨"assistant", "Hello world"⟩] ∧
    handle_response (handle_streaming_chunk (handle_streaming_chunk
        (handle_streaming_chunk st "Hel") "lo") " world") "Hello world" =
      { st with
        conversation_history := st.conversation_history ++ [⟨"assistant", "Hello world"⟩]
        current_streaming_bubble := false } ∧
    (handle_response (handle_streaming_chunk (handle_streaming_chunk
        (handle_streaming_chunk st "Hel") "lo") " world")
        "Hello world").conversation_history.length =
      st.conversation_history.length + 1 := by
  have e1 := handle_streaming_chunk_inactive st "Hel" hbub
  have e2 : handle_streaming_chunk (handle_streaming_chunk st "Hel") "lo" =
      { st with
        conversation_history := st.conversation_history ++ [⟨"assistant", "Hello"⟩]
        current_streaming_bubble := true } := by
    rw [e1, handle_streaming_chunk_active _ _ rfl, appendToLast_concat]; rfl
  have e3 : handle_streaming_chunk (handle_streaming_chunk
      (handle_streaming_chunk st "Hel") "lo") " world" =
      { st with
        conversation_history := st.conversation_history ++ [⟨"assistant", "Hello world"⟩]
        current_streaming_bubble := true } := by
    rw [e2, handle_streaming_chunk_active _ _ rfl, appendToLast_concat]; rfl
  have e4 : handle_response (handle_streaming_chunk (handle_streaming_chunk
      (handle_streaming_chunk st "Hel") "lo") " world") "Hello world" =
      { st with
        conversation_history := st.conversation_history ++ [⟨"assistant", "Hello world"⟩]
        current_streaming_bubble := false } := by
    rw [e3]
    simp [handle_response, hstr]
  refine ⟨by rw [e1], by rw [e2], by rw [e3], e4, by rw [e4]; simp⟩

/-- C3 witness: the theorem applied at a concrete session state. -/
theorem c3_streaming_accumulation_witness :
    (handle_streaming_chunk
      { conversation_history := [⟨"user", "hi"⟩], api_url := "u",
        current_model := "m", system_prompt := "", use_streaming := true,
        current_streaming_bubble := false } "Hel").conversation_history =
      [⟨"user", "hi"⟩, ⟨"assistant", "Hel"⟩] ∧
    handle_response (handle_streaming_chunk (handle_streaming_chunk
        (handle_streaming_chunk
          { conversation_history := [⟨"user", "hi"⟩], api_url := "u",
            current_model := "m", system_prompt := "", use_streaming := true,
            current_streaming_bubble := false } "Hel") "lo") " world")
        "Hello world" =
      { conversation_history := [⟨"user", "hi"⟩, ⟨"assistant", "Hello world"⟩],
        api_url := "u", current_model := "m", system_prompt := "",
        use_streaming := true, current_streaming_bubble := false } := by
  have h := c3_streaming_accumulation
    { conversation_history := [⟨"user", "hi"⟩], api_url := "u",
      current_model := "m", system_prompt := "", use_streaming := true,
      current_streaming_bubble := false } rfl rfl
  exact ⟨by rw [h.1]; rfl, by rw [h.2.2.2.1]; rfl⟩

/-- C4 (counterexample): the claim asserts that on a worker error the
session appends an error-content assistant message to the conversation
history.  It does not: `handle_error` renders the error bubble through
`add_message_bubble`, which never touches `conversation_history`, so at
this concrete state the history after the error is unchanged — no message
was appended. -/
theorem c4_counterexample :
    (handle_error
      { conversation_history := [⟨"user", "hi"⟩], api_url := "u",
        current_model := "m", system_prompt := "", use_streaming := true,
        current_streaming_bubble := true }
      "boom").1.conversation_history = [⟨"user", "hi"⟩] := by
  decide

/-- C4 (amended): on every worker error event the session renders an
error-content assistant bubble (`"Error: ..."`, on the assistant side) but
appends nothing to the conversation history, and clears the active
streaming accumulation when streaming mode is enabled (when it is
disabled, the state is untouched); the handler is a total function, so no
error is fatal. -/
theorem c4_error_handling (st : GuiState) (msg : String) :
    (handle_error st msg).1.conversation_history = st.conversation_history ∧
    (handle_error st msg).2 = [DisplayEvent.bubble ("Error: " ++ msg) false] ∧
    (st.use_streaming = true →
      (handle_error st msg).1 = { st with current_streaming_bubble := false }) ∧
    (st.use_streaming = false → (handle_error st msg).1 = st) := by
  refine ⟨?_, rfl, fun h => ?_, fun h => ?_⟩
  · cases hs : st.use_streaming <;> simp [handle_error, hs]
  · simp [handle_error, h]
  · simp [handle_error, h]

/-- C4 (amended) witness: the theorem applied at concrete states with
streaming on and off. -/
theorem c4_error_handling_witness :
    (handle_error
      { conversation_history := [], api_url := "u", current_model := "m",
        system_prompt := "", use_streaming := true,
        current_streaming_bubble := true } "boom").2 =
      [DisplayEvent.bubble "Error: boom" false] ∧
    (handle_error
      { conversation_history := [], api_url := "u", current_model := "m",
        system_prompt := "", use_streaming := true,
        current_streaming_bubble := true } "boom").1 =
      { conversation_history := [], api_url := "u", current_model := "m",
        system_prompt := "", use_streaming := true,
        current_streaming_bubble := false } ∧
    (handle_error
      { conversation_history := [], api_url := "u", current_model := "m",
        system_prompt := "", use_streaming := false,
        current_streaming_bubble := false } "boom").1 =
      { conversation_history := [], api_url := "u", current_model := "m",
        system_prompt := "", use_streaming := false,
        current_streaming_bubble := false } := by
  refine ⟨(c4_error_handling _ "boom").2.1, (c4_error_handling _ "boom").2.2.1 rfl,
    (c4_error_handling _ "boom").2.2.2 rfl⟩

/-- C6: `send_message` is a no-op on empty or whitespace-only input; and
when the stripped text is an ordinary (non-slash) message but no valid
model is configured — neither before nor after the model dialog it opens —
it reports the model-required condition (rendering a
"Please select a valid model first." bubble) instead of sending; in both
cases the conversation history is left unchanged. -/
theorem c6_submit_guards (st : GuiState) (input : String)
    (d : Option ModelSelection) :
    (pyStrip input = "" →
      send_message st input d =
        { outcome := SendOutcome.noop, state := st, displays := [] }) ∧
    (pyStrip input ≠ "" →
      startsWithSlash (pyStrip input) = false →
      invalid_model st.current_model = true →
      invalid_model (applyDialog st d).current_model = true →
      (send_message st input d).outcome = SendOutcome.modelRequired ∧
      (send_message st input d).state.conversation_history =
        st.conversation_history ∧
      (send_message st input d).displays =
        [DisplayEvent.bubble "Please select a valid model first." false]) := by
  constructor
  · intro h
    simp [send_message, h]
  · intro h1 h2 h3 h4
    simp [send_message, h1, h2, h3, h4, applyDialog_history, add_message_bubble]

/-- C6 witness: empty input, and an ordinary message with no model set and
a cancelled dialog. -/
theorem c6_submit_guards_witness :
    send_message
      { conversation_history := [⟨"user", "old"⟩], api_url := "u",
        current_model := "", system_prompt := "", use_streaming := false,
        current_streaming_bubble := false } "   " none =
      { outcome := SendOutcome.noop,
        state := { conversation_history := [⟨"user", "old"⟩], api_url := "u",
                   current_model := "", system_prompt := "",
                   use_streaming := false, current_streaming_bubble := false },
        displays := [] } ∧
    (send_message
      { conversation_history := [⟨"user", "old"⟩], api_url := "u",
        current_model := "", system_prompt := "", use_streaming := false,
        current_streaming_bubble := false } "hello" none).outcome =
      SendOutcome.modelRequired ∧
    (send_message
      { conversation_history := [⟨"user", "old"⟩], api_url := "u",
        current_model := "", system_prompt := "", use_streaming := false,
        current_streaming_bubble := false } "hello" none).state.conversation_history =
      [⟨"user", "old"⟩] := by
  have h := c6_submit_guards
    { conversation_history := [⟨"user", "old"⟩], api_url := "u",
      current_model := "", system_prompt := "", use_streaming := false,
      current_streaming_bubble := false } "hello" none
  refine ⟨(c6_submit_guards _ "   " none).1 (by decide), ?_, ?_⟩
  · exact (h.2 (by decide) (by decide) (by decide) (by decide)).1
  · exact (h.2 (by decide) (by decide) (by decide) (by decide)).2.1

/-- C7: at send time the system-prompt template gets `%model%` replaced by
the active model's formatted name and `%parameters%` by the size info with
its trailing size letter stripped (`"unknown"` when the model has no size
token), and an empty system prompt produces a payload with no system
field at all. -/
theorem c7_system_prompt_template (tpl model prompt : String) (stream : Bool) :
    (mkPayload model prompt stream "").system = none ∧
    (tpl ≠ "" →
      mkPayload model prompt stream tpl =
        { model := model, prompt := prompt, stream := stream,
          system :=
            let substituted :=
              pyReplace
                (pyReplace tpl "%model%" (format_model_name model).formatted_name)
                "%parameters%"
                (extract_param_count (format_model_name model).size_info)
            if substituted ≠ "" then some substituted else none }) ∧
    ((format_model_name model).size_info = "" →
      extract_param_count (format_model_name model).size_info = "unknown") ∧
    (∀ si : String, si ≠ "" → (si.toList.getLastD ' ').toLower = 'b' →
      extract_param_count si = String.mk si.toList.dropLast) := by
  refine ⟨rfl, fun h => ?_, fun h => ?_, fun si h1 h2 => ?_⟩
  · simp [mkPayload, process_system_prompt, h]
  · rw [h]; rfl
  · unfold extract_param_count
    rw [if_neg h1, if_pos h2]

/-- C7 witness: a template with both placeholders against `llama2:13b`
(size letter stripped), an empty template (no system field), and a model
with no size token (`"unknown"`). -/
theorem c7_system_prompt_template_witness :
    mkPayload "llama2:13b" "p" false "I am %model% with %parameters% params" =
      { model := "llama2:13b", prompt := "p", stream := false,
        system := some "I am Llama2 with 13 params" } ∧
    (mkPayload "llama2:13b" "p" false "").system = none ∧
    extract_param_count (format_model_name "mistral").size_info = "unknown" ∧
    extract_param_count "13b" = String.mk "13b".toList.dropLast := by
  have h := c7_system_prompt_template "I am %model% with %parameters% params"
    "llama2:13b" "p" false
  have h' := c7_system_prompt_template "x" "mistral" "p" false
  refine ⟨?_, h.1, h'.2.2.1 (by decide), h.2.2.2 "13b" (by decide) (by decide)⟩
  rw [h.2.1 (by decide)]
  decide

/-- C8: `process_command` matches only the first whitespace-delimited
token of the input, exactly and case-sensitively, against the command
table; any input whose first token is `/clear` — regardless of trailing
tokens — empties the conversation history while leaving the endpoint,
active model, system prompt and streaming flag unchanged, and any input
whose first token is not in the table is reported as not a recognized
command, with no state change. -/
theorem c8_process_command (st : GuiState) (text : String) :
    (∀ rest, pySplit text = "/clear" :: rest →
      process_command st text =
        (true, { st with conversation_history := [] }, [])) ∧
    (∀ tok rest, pySplit text = tok :: rest →
      tok ∉ ["/clear", "/models", "/system", "/bye"] →
      process_command st text = (false, st, [])) := by
  constructor
  · intro rest h
    simp [process_command, h, commands, command_action]
  · intro tok rest h hmem
    exact process_command_unknown st text tok rest h hmem

/-- C8 witness: `"/clear extra args"` clears the history of a concrete
state and leaves its configuration intact; `"/CLEAR"` (wrong case) is not
recognized. -/
theorem c8_process_command_witness :
    process_command
      { conversation_history := [⟨"user", "a"⟩, ⟨"assistant", "b"⟩],
        api_url := "http://localhost:11434", current_model := "llama2:13b",
        system_prompt := "sp", use_streaming := true,
        current_streaming_bubble := false } "/clear extra args" =
      (true,
        { conversation_history := [], api_url := "http://localhost:11434",
          current_model := "llama2:13b", system_prompt := "sp",
          use_streaming := true, current_streaming_bubble := false },
        []) ∧
    process_command
      { conversation_history := [⟨"user", "a"⟩], api_url := "u",
        current_model := "m", system_prompt := "", use_streaming := false,
        current_streaming_bubble := false } "/CLEAR" =
      (false,
        { conversation_history := [⟨"user", "a"⟩], api_url := "u",
          current_model := "m", system_prompt := "", use_streaming := false,
          current_streaming_bubble := false },
        []) := by
  constructor
  · rw [(c8_process_command _ "/clear extra args").1 ["extra", "args"] (by decide)]
  · rw [(c8_process_command _ "/CLEAR").2 "/CLEAR" [] (by decide) (by decide)]

/-- C9: configuration round-trip — saving the dialog with prompt `"X"` and
streaming checked and loading yields a session with system prompt `"X"`
and streaming enabled; a missing file yields the defaults (empty prompt,
streaming off), and a file missing either field falls back to that field's
default. -/
theorem c9_config_round_trip :
    load_config (some (save_prompt "X" true)) =
      { system_prompt := "X", use_streaming := true } ∧
    load_config none = { system_prompt := "", use_streaming := false } ∧
    (∀ (sp : Option String) (us : Option Bool),
      load_config (some { system_prompt := sp, use_streaming := us }) =
        { system_prompt := sp.getD "", use_streaming := us.getD false }) := by
  exact ⟨by decide, rfl, fun sp us => rfl⟩

/-- C10: a non-empty input starting with `/` whose first token is not one
of the four table commands falls through failed command processing and is
treated as an ordinary chat message: with a valid model configured, the
stripped text is appended to history as a user message, rendered as a user
bubble, and a worker request carrying it is started with the current
configuration. -/
theorem c10_unrecognized_slash_sent (st : GuiState) (input : String)
    (d : Option ModelSelection) (tok : String) (rest : List String)
    (_hslash : startsWithSlash (pyStrip input) = true)
    (hsplit : pySplit (pyStrip input) = tok :: rest)
    (hmem : tok ∉ ["/clear", "/models", "/system", "/bye"])
    (hmodel : invalid_model st.current_model = false) :
    send_message st input d =
      { outcome := SendOutcome.sent
          { model := st.current_model, prompt := pyStrip input,
            api_url := st.api_url, system_prompt := st.system_prompt,
            use_streaming := st.use_streaming }
        state := { st with
          conversation_history := st.conversation_history ++ [⟨"user", pyStrip input⟩]
          current_streaming_bubble :=
            if st.use_streaming then false else st.current_streaming_bubble }
        displays := [DisplayEvent.bubble (pyStrip input) true] } := by
  have hne : pyStrip input ≠ "" := by
    intro h
    rw [h] at hsplit
    simp [pySplit, pyWordsAux] at hsplit
  have hcmd := process_command_unknown st (pyStrip input) tok rest hsplit hmem
  simp [send_message, hne, hcmd, hmodel, add_message_bubble]

/-- C10 witness: `"/unknown cmd"` with a valid model is sent as an
ordinary user message. -/
theorem c10_unrecognized_slash_sent_witness :
    send_message
      { conversation_history := [⟨"user", "x"⟩], api_url := "u",
        current_model := "llama2:13b", system_prompt := "sp",
        use_streaming := true, current_streaming_bubble := false }
      " /unknown cmd " none =
      { outcome := SendOutcome.sent
          { model := "llama2:13b", prompt := "/unknown cmd", api_url := "u",
            system_prompt := "sp", use_streaming := true },
        state := { conversation_history := [⟨"user", "x"⟩, ⟨"user", "/unknown cmd"⟩],
                   api_url := "u", current_model := "llama2:13b",
                   system_prompt := "sp", use_streaming := true,
                   current_streaming_bubble := false },
        displays := [DisplayEvent.bubble "/unknown cmd" true] } := by
  rw [c10_unrecognized_slash_sent _ " /unknown cmd " none "/unknown" ["cmd"]
    (by decide) (by decide) (by decide) (by decide)]
  decide

end ChatForge
